import Mathlib

/-!
# Verification of `rest_live/consumers.py` (django-rest-live)

A shallow embedding of the websocket subscription consumer: the group-name
derivation `get_group_name`, the registry lookup `get_permissions`, the
permission evaluation `does_have_permission`, the delivery entry point
`SubscriptionConsumer.notify`, and the subscribe/unsubscribe handler
`SubscriptionConsumer.receive_json`.

Python exceptions are modelled with `Except PyError`; a `.error` result means
the exception propagated out of the modelled function uncaught.  Calls to the
channel layer (the broadcast fabric) are recorded as an explicit trace, and
`print` diagnostics are collected as a list of strings.
-/

/-- The Python exceptions that the consumer code can raise or catch. -/
inductive PyError where
  /-- `KeyError`: dictionary lookup on a missing key. -/
  | keyError
  /-- `IndexError`: sequence index out of range. -/
  | indexError
  /-- `ValueError`: `list.remove(x)` when `x` is absent. -/
  | valueError
  /-- `Model.DoesNotExist`: `objects.get(...)` found no instance. -/
  | doesNotExist
  /-- An arbitrary exception raised from inside a user-supplied check. -/
  | checkFault
deriving DecidableEq, Repr

/-- Python `d[k]` on a string-keyed dict (association list): raises `KeyError`
when the key is absent. -/
def dictGet {α : Type} (d : List (String × α)) (k : String) : Except PyError α :=
  match d.find? (fun p => p.1 == k) with
  | some p => .ok p.2
  | none => .error .keyError

/-- Python `l[i]` on a list with a non-negative index: raises `IndexError`
when the index is out of range. -/
def listIndex {α : Type} (l : List α) (i : Nat) : Except PyError α :=
  match l.get? i with
  | some a => .ok a
  | none => .error .indexError

/-- The principal attached to a connection (`self.scope["user"]`); `none`
models a scope with no user (`self.scope.get("user", None)`). -/
abbrev Principal := String

/-- A record instance fetched from the record store, as a bag of named
integer-valued fields. -/
structure RecordInstance where
  fields : List (String × Int)
deriving DecidableEq, Repr

/-- A registered authorization check (`PermissionLambda`): a predicate over the
connection's user and a freshly fetched instance.  A `.error` result models the
Python check raising an exception. -/
def PermissionLambda : Type :=
  Option Principal → RecordInstance → Except PyError Bool

/-- The record store collaborator (Django ORM): `fetch model_label filter`
returns the unique instance matching the field filter, or `none` when
`objects.get` would raise `DoesNotExist`. -/
structure RecordStore where
  fetch : String → List (String × Int) → Option RecordInstance

/-- Modelled from the spec: the process-wide table `__model_to_listeners`
lives in `rest_live/__init__.py`, which is not part of the sources here.
Per the spec's data model it maps `(entityType, propertyName)` to an
"ordered list of (priority rank, authorization-check function)" whose ranks
are "used as array index": a dict from model label to a dict from group key
to a list, indexed by rank, of `(rank, check)` entries where a `none` check
means "always allow". -/
def Listeners : Type :=
  List (String × List (String × List (Nat × Option PermissionLambda)))

/-- `get_group_name(model_label, value, key_prop)`: the f-string
`RESOURCE-{model_label}-{key_prop}-{value}`.  Note the argument order differs
from the order in the produced name. -/
def get_group_name (model_label value key_prop : String) : String :=
  "RESOURCE-" ++ model_label ++ "-" ++ key_prop ++ "-" ++ value

/-- `get_permissions(model_label, group_key, rank)`:
`__model_to_listeners[model_label][group_key][rank]`.  The two dict subscripts
raise `KeyError` on a miss; the final list subscript raises `IndexError` when
`rank` is out of range. -/
def get_permissions (reg : Listeners) (model_label group_key : String)
    (rank : Nat) : Except PyError (Nat × Option PermissionLambda) :=
  match dictGet reg model_label with
  | .error e => .error e
  | .ok byGroup =>
    match dictGet byGroup group_key with
    | .error e => .error e
    | .ok entries => listIndex entries rank

/-- `does_have_permission(user, model_label, instance_filter, check)`:
fetches `model.objects.get(**instance_filter)` and applies the check.  A
missing instance raises `DoesNotExist`; an exception from the check itself
propagates. -/
def does_have_permission (store : RecordStore) (user : Option Principal)
    (model_label : String) (instance_filter : List (String × Int))
    (check : PermissionLambda) : Except PyError Bool :=
  match store.fetch model_label instance_filter with
  | none => .error .doesNotExist
  | some inst => check user inst

/-- A change event as delivered by the channel layer to `notify`: the handler
reads `event["content"]`, `event["group_key"]`, `event["instance_pk"]` and
`event["rank"]`, and `content` is a JSON object read via `content["model"]`. -/
structure ChangeEvent where
  content : List (String × String)
  group_key : String
  instance_pk : Int
  rank : Nat

/-- What a completed run of `notify` did: the payloads passed to `send_json`
(the source sends at most one) and the diagnostics printed. -/
structure NotifyOutcome where
  sent : List (List (String × String))
  diags : List String
deriving DecidableEq

/-- `SubscriptionConsumer.notify(event)`.  Reads `content["model"]` outside
any handler, resolves the check with `get_permissions` inside a
`try/except KeyError`, then either sends unconditionally (check `None`),
or evaluates the check against the instance fetched by the literal filter
`{"id": instance_pk}` and sends only on `True`.  Any exception other than the
caught `KeyError` propagates as `.error`. -/
def notify (reg : Listeners) (store : RecordStore) (user : Option Principal)
    (event : ChangeEvent) : Except PyError NotifyOutcome :=
  match dictGet event.content "model" with
  | .error e => .error e
  | .ok model_label =>
    match get_permissions reg model_label event.group_key event.rank with
    | .error .keyError => .ok ⟨[], ["NO ENTRY -- ERROR"]⟩
    | .error e => .error e
    | .ok (_, none) =>
      .ok ⟨[event.content], ["SENDING PAYLOAD -- CHECK NONE"]⟩
    | .ok (_, some check) =>
      match does_have_permission store user model_label
          [("id", event.instance_pk)] check with
      | .error e => .error e
      | .ok true =>
        .ok ⟨[event.content], ["SENDING PAYLOAD -- CHECK PASSED"]⟩
      | .ok false => .ok ⟨[], ["CHECK FAILED"]⟩

/-- An incoming client message, with the optional fields the handler reads via
`content.get`. -/
structure Request where
  model : Option String
  property : Option String
  value : Option String
  unsubscribe : Option Bool

/-- Per-connection state: `self.groups` (a Python list, duplicates allowed)
and, for this connection's channel, the set of groups it belongs to in the
channel layer (the broadcast fabric keeps at most one membership per
(group, channel) pair). -/
structure ConsumerState where
  groups : List String
  fabricMembers : List String
deriving DecidableEq

/-- A call made to the channel layer by `receive_json`. -/
inductive FabricCall where
  /-- `channel_layer.group_add(group, channel)` -/
  | group_add (group : String)
  /-- `channel_layer.group_discard(group, channel)` -/
  | group_discard (group : String)
deriving DecidableEq

/-- Fabric effect of `group_add`: membership is a set, so adding an existing
member changes nothing. -/
def fabricAdd (members : List String) (g : String) : List String :=
  if g ∈ members then members else members ++ [g]

/-- Fabric effect of `group_discard`: removes the membership if present. -/
def fabricDiscard (members : List String) (g : String) : List String :=
  members.erase g

/-- Python `str(x)` applied to an optional string: `None` prints as `"None"`.
Used because `receive_json` interpolates a possibly-missing `property` into
the group name and into a diagnostic. -/
def pyStr (x : Option String) : String :=
  match x with
  | none => "None"
  | some s => s

/-- What a completed run of `receive_json` did: the new connection state, the
channel-layer calls made, and the diagnostics printed. -/
structure ReceiveOutcome where
  state : ConsumerState
  calls : List FabricCall
  diags : List String
deriving DecidableEq

/-- `SubscriptionConsumer.receive_json(content)`.  Rejects a missing `model`
or a missing `value` with a diagnostic; otherwise derives the group name (a
missing `property` is interpolated as the string `None`).  Subscribe appends
to `self.groups` unconditionally and calls `group_add`; unsubscribe calls
`self.groups.remove` — which raises `ValueError` when the name is absent —
and calls `group_discard` only when no copy of the name remains in
`self.groups`. -/
def receive_json (st : ConsumerState) (content : Request) :
    Except PyError ReceiveOutcome :=
  match content.model with
  | none => .ok ⟨st, [], ["[LIVE] No model"]⟩
  | some model_label =>
    let prop := content.property
    match content.value with
    | none =>
      .ok ⟨st, [], ["[LIVE] No value for prop " ++ pyStr prop ++ " found."]⟩
    | some value =>
      let group_name := get_group_name model_label value (pyStr prop)
      let unsubscribe := content.unsubscribe.getD false
      if unsubscribe = false then
        .ok ⟨⟨st.groups ++ [group_name], fabricAdd st.fabricMembers group_name⟩,
          [.group_add group_name],
          ["[REST-LIVE] got subscription to " ++ group_name]⟩
      else
        if group_name ∈ st.groups then
          let groups' := st.groups.erase group_name
          if group_name ∈ groups' then
            .ok ⟨⟨groups', st.fabricMembers⟩, [],
              ["[REST-LIVE] got unsubscribe for " ++ group_name]⟩
          else
            .ok ⟨⟨groups', fabricDiscard st.fabricMembers group_name⟩,
              [.group_discard group_name],
              ["[REST-LIVE] got unsubscribe for " ++ group_name]⟩
        else
          .error .valueError

/-! ## Helper lemmas -/

/-- Splitting a list at the first occurrence of a separator is unambiguous
when the part before the separator does not contain it. -/
theorem sep_split {α : Type} [DecidableEq α] {sep : α} :
    ∀ (xs xs' : List α) {ys ys' : List α}, sep ∉ xs → sep ∉ xs' →
      xs ++ sep :: ys = xs' ++ sep :: ys' → xs = xs' ∧ ys = ys' := by
  intro xs
  induction xs with
  | nil =>
    intro xs' ys ys' hx hx' h
    cases xs' with
    | nil => simpa using h
    | cons b t' =>
      rw [List.mem_cons] at hx'
      push_neg at hx'
      simp only [List.nil_append, List.cons_append, List.cons.injEq] at h
      exact absurd h.1 hx'.1
  | cons a t ih =>
    intro xs' ys ys' hx hx' h
    rw [List.mem_cons] at hx
    push_neg at hx
    cases xs' with
    | nil =>
      simp only [List.cons_append, List.nil_append, List.cons.injEq] at h
      exact absurd h.1.symm hx.1
    | cons b t' =>
      rw [List.mem_cons] at hx'
      push_neg at hx'
      simp only [List.cons_append, List.cons.injEq] at h
      obtain ⟨rfl, h2⟩ := h
      obtain ⟨e1, e2⟩ := ih t' hx.2 hx'.2 h2
      exact ⟨by rw [e1], e2⟩

/-- The character data of a produced group name, split at the separators. -/
theorem get_group_name_data (m v p : String) :
    (get_group_name m v p).data =
      "RESOURCE-".data ++ (m.data ++ '-' :: (p.data ++ '-' :: v.data)) := by
  simp only [get_group_name, String.data_append, List.append_assoc]
  rfl

/-! ## C2: group-name determinism and injectivity -/

/-- C2 counterexample: `get_group_name` is built by naive `-`-separated
concatenation, so two distinct (model, property, value) tuples whose
components contain the separator collide on the same group name. -/
theorem get_group_name_collision :
    get_group_name "a-b" "v" "p" = get_group_name "a" "v" "b-p" ∧
    ("a-b", "v", "p") ≠ (("a", "v", "b-p") : String × String × String) := by
  exact ⟨rfl, by decide⟩

/-- C2 (amended): `get_group_name` is deterministic (it is a function, and
equal tuples give equal names), and it is injective on tuples whose model
label and property name are free of the separator character `-`; without
that restriction injectivity fails. -/
theorem get_group_name_inj_sep_free (m v p m' v' p' : String)
    (hm : ('-' : Char) ∉ m.data) (hm' : ('-' : Char) ∉ m'.data)
    (hp : ('-' : Char) ∉ p.data) (hp' : ('-' : Char) ∉ p'.data) :
    get_group_name m v p = get_group_name m' v' p' ↔ m = m' ∧ v = v' ∧ p = p' := by
  constructor
  · intro h
    have hd := congrArg String.data h
    rw [get_group_name_data, get_group_name_data] at hd
    have h1 := List.append_cancel_left hd
    obtain ⟨e1, e2⟩ := sep_split m.data m'.data hm hm' h1
    obtain ⟨e3, e4⟩ := sep_split p.data p'.data hp hp' e2
    exact ⟨String.ext e1, String.ext e4, String.ext e3⟩
  · rintro ⟨rfl, rfl, rfl⟩
    rfl

/-- C2 witness: the injectivity theorem applied at concrete separator-free
tuples. -/
theorem get_group_name_inj_sep_free_witness :
    (get_group_name "Order" "42" "id" = get_group_name "Post" "42" "id" ↔
      "Order" = "Post" ∧ "42" = "42" ∧ "id" = "id") :=
  get_group_name_inj_sep_free "Order" "42" "id" "Post" "42" "id"
    (by decide) (by decide) (by decide) (by decide)

/-! ## Concrete sample data shared by witnesses -/

/-- A record store in which every lookup misses (`DoesNotExist`). -/
def emptyStore : RecordStore := ⟨fun _ _ => none⟩

/-- A check that allows every (user, instance) pair. -/
def alwaysTrueCheck : PermissionLambda := fun _ _ => .ok true

/-- A registry with a single always-allow entry at rank 0 for
`("app.Order", "id")`. -/
def regNullCheck : Listeners := [("app.Order", [("id", [(0, none)])])]

/-- A registry with a single real check at rank 0 for `("app.Order", "id")`. -/
def regRealCheck : Listeners := [("app.Order", [("id", [(0, some alwaysTrueCheck)])])]

/-- A change event for `app.Order` instance 42 at rank 0. -/
def eventOrder42 : ChangeEvent := ⟨[("model", "app.Order")], "id", 42, 0⟩

/-! ## C1: notify forwards exactly when the check allows -/

/-- C1: when the event's model resolves in the content and the registry lookup
succeeds, `notify` forwards the payload to the connection exactly when the
resolved check is the `None` sentinel or the check evaluated on the
connection's user and the freshly fetched instance returns `True`; when the
check returns `False` nothing is sent (only the `CHECK FAILED` diagnostic). -/
theorem notify_forwards_iff_allowed (reg : Listeners) (store : RecordStore)
    (user : Option Principal) (event : ChangeEvent) (model_label : String)
    (r : Nat) (chk : Option PermissionLambda)
    (hm : dictGet event.content "model" = .ok model_label)
    (hp : get_permissions reg model_label event.group_key event.rank = .ok (r, chk)) :
    ((∃ out, notify reg store user event = .ok out ∧ out.sent = [event.content]) ↔
      (chk = none ∨ ∃ c, chk = some c ∧
        does_have_permission store user model_label
          [("id", event.instance_pk)] c = .ok true)) ∧
    (∀ c, chk = some c →
      does_have_permission store user model_label
        [("id", event.instance_pk)] c = .ok false →
      notify reg store user event = .ok ⟨[], ["CHECK FAILED"]⟩) := by
  constructor
  · cases chk with
    | none => simp [notify, hm, hp]
    | some c =>
      cases hd : does_have_permission store user model_label
          [("id", event.instance_pk)] c with
      | error e => simp [notify, hm, hp, hd]
      | ok b => cases b <;> simp [notify, hm, hp, hd]
  · intro c hc hfalse
    rw [hc] at hp
    simp [notify, hm, hp, hfalse]

/-- C1 witness: the forwarding theorem applied to a concrete event resolving
to the null always-allow check. -/
theorem notify_forwards_iff_allowed_witness :
    ((∃ out, notify regNullCheck emptyStore none eventOrder42 = .ok out ∧
        out.sent = [eventOrder42.content]) ↔
      ((none : Option PermissionLambda) = none ∨ ∃ c,
        (none : Option PermissionLambda) = some c ∧
        does_have_permission emptyStore none "app.Order"
          [("id", eventOrder42.instance_pk)] c = .ok true)) ∧
    (∀ c, (none : Option PermissionLambda) = some c →
      does_have_permission emptyStore none "app.Order"
        [("id", eventOrder42.instance_pk)] c = .ok false →
      notify regNullCheck emptyStore none eventOrder42 =
        .ok ⟨[], ["CHECK FAILED"]⟩) :=
  notify_forwards_iff_allowed regNullCheck emptyStore none eventOrder42
    "app.Order" 0 none rfl rfl

/-! ## C3: subscribe is not idempotent on local state -/

/-- Adding a group to the fabric twice equals adding it once. -/
theorem fabricAdd_idem (f : List String) (g : String) :
    fabricAdd (fabricAdd f g) g = fabricAdd f g := by
  unfold fabricAdd
  by_cases h : g ∈ f
  · simp [h]
  · simp [h]

/-- Closed form of the subscribe branch of `receive_json`: with all three
fields present and no unsubscribe flag, the handler appends the group name to
`self.groups`, joins the fabric group, and prints one diagnostic. -/
theorem receive_json_subscribe (st : ConsumerState) (m p v : String) :
    receive_json st ⟨some m, some p, some v, none⟩ =
      .ok ⟨⟨st.groups ++ [get_group_name m v p],
          fabricAdd st.fabricMembers (get_group_name m v p)⟩,
        [.group_add (get_group_name m v p)],
        ["[REST-LIVE] got subscription to " ++ get_group_name m v p]⟩ := rfl

/-- C3 counterexample: two identical subscribe requests leave TWO copies of
the group name in the connection's `self.groups` list — the local membership
is duplicated, contradicting "exactly one membership / no duplicate entry". -/
theorem subscribe_twice_duplicates :
    receive_json ⟨[], []⟩ ⟨some "app.Order", some "id", some "42", none⟩ =
      .ok ⟨⟨["RESOURCE-app.Order-id-42"], ["RESOURCE-app.Order-id-42"]⟩,
        [.group_add "RESOURCE-app.Order-id-42"],
        ["[REST-LIVE] got subscription to RESOURCE-app.Order-id-42"]⟩ ∧
    receive_json ⟨["RESOURCE-app.Order-id-42"], ["RESOURCE-app.Order-id-42"]⟩
        ⟨some "app.Order", some "id", some "42", none⟩ =
      .ok ⟨⟨["RESOURCE-app.Order-id-42", "RESOURCE-app.Order-id-42"],
          ["RESOURCE-app.Order-id-42"]⟩,
        [.group_add "RESOURCE-app.Order-id-42"],
        ["[REST-LIVE] got subscription to RESOURCE-app.Order-id-42"]⟩ ∧
    (["RESOURCE-app.Order-id-42", "RESOURCE-app.Order-id-42"] :
      List String).count "RESOURCE-app.Order-id-42" ≠ 1 := by
  refine ⟨rfl, rfl, by decide⟩

/-- C3 (amended): subscribe is not idempotent on the connection's local group
list: each subscribe request unconditionally appends one copy of the group
name, so two subscribe requests for the same (model, property, value) leave
the connection with two local copies; only the fabric membership (a set per
(group, channel) pair) stays single. -/
theorem subscribe_twice_state (st : ConsumerState) (m p v : String)
    (o1 o2 : ReceiveOutcome)
    (h1 : receive_json st ⟨some m, some p, some v, none⟩ = .ok o1)
    (h2 : receive_json o1.state ⟨some m, some p, some v, none⟩ = .ok o2) :
    o2.state.groups.count (get_group_name m v p) =
      st.groups.count (get_group_name m v p) + 2 ∧
    o2.state.fabricMembers = fabricAdd st.fabricMembers (get_group_name m v p) := by
  rw [receive_json_subscribe] at h1
  injection h1 with h1'
  subst h1'
  rw [receive_json_subscribe] at h2
  injection h2 with h2'
  subst h2'
  constructor
  · simp [List.count_append]
  · exact fabricAdd_idem st.fabricMembers (get_group_name m v p)

/-- C3 witness: the two-subscribe theorem applied to a concrete run from the
empty state. -/
theorem subscribe_twice_state_witness :
    (ReceiveOutcome.mk
        ⟨["RESOURCE-app.Order-id-42", "RESOURCE-app.Order-id-42"],
          ["RESOURCE-app.Order-id-42"]⟩
        [.group_add "RESOURCE-app.Order-id-42"]
        ["[REST-LIVE] got subscription to RESOURCE-app.Order-id-42"]
      ).state.groups.count (get_group_name "app.Order" "42" "id") =
      (([] : List String)).count (get_group_name "app.Order" "42" "id") + 2 ∧
    (ReceiveOutcome.mk
        ⟨["RESOURCE-app.Order-id-42", "RESOURCE-app.Order-id-42"],
          ["RESOURCE-app.Order-id-42"]⟩
        [.group_add "RESOURCE-app.Order-id-42"]
        ["[REST-LIVE] got subscription to RESOURCE-app.Order-id-42"]
      ).state.fabricMembers =
      fabricAdd [] (get_group_name "app.Order" "42" "id") :=
  subscribe_twice_state ⟨[], []⟩ "app.Order" "id" "42" _ _ rfl rfl

/-! ## C4: unsubscribe of a non-member raises ValueError -/

/-- C4 counterexample: unsubscribing a tuple never subscribed to is NOT a
no-op — `self.groups.remove(group_name)` raises an uncaught `ValueError`. -/
theorem unsubscribe_nonmember_raises :
    receive_json ⟨[], []⟩ ⟨some "app.Order", some "id", some "42", some true⟩ =
      .error .valueError := rfl

/-- C4 (amended): for a connection that is not a member of the derived group,
an unsubscribe request makes no fabric call and leaves no changed state — but
only because it aborts with an uncaught `ValueError` raised by
`self.groups.remove`; it is not the error-free no-op the spec describes. -/
theorem unsubscribe_nonmember_value_error (st : ConsumerState) (m p v : String)
    (h : get_group_name m v p ∉ st.groups) :
    receive_json st ⟨some m, some p, some v, some true⟩ = .error .valueError := by
  simp [receive_json, pyStr, h]

/-- C4 witness: the ValueError theorem applied to a connection holding an
unrelated membership. -/
theorem unsubscribe_nonmember_value_error_witness :
    receive_json ⟨["RESOURCE-app.Post-id-7"], ["RESOURCE-app.Post-id-7"]⟩
        ⟨some "app.Order", some "id", some "42", some true⟩ =
      .error .valueError :=
  unsubscribe_nonmember_value_error
    ⟨["RESOURCE-app.Post-id-7"], ["RESOURCE-app.Post-id-7"]⟩
    "app.Order" "id" "42" (by decide)

/-! ## C5: registry-miss handling depends on the exception type -/

/-- C5 counterexample: an out-of-range rank makes the modelled registry list
subscript raise `IndexError`, which the handler's `except KeyError` does not
catch — the lookup failure propagates out of `notify` instead of being
dropped with a diagnostic. -/
theorem notify_rank_index_error :
    notify regNullCheck emptyStore none ⟨[("model", "app.Order")], "id", 42, 1⟩ =
      .error .indexError := rfl

/-- C5 (amended): a registry miss on the model label or on the group key
raises `KeyError`, which `notify` catches: it sends nothing, prints exactly
the one `NO ENTRY -- ERROR` diagnostic and returns; but a miss on the rank (an
out-of-range index into the entry list) raises `IndexError`, which propagates
uncaught. -/
theorem notify_registry_miss_handling (reg : Listeners) (store : RecordStore)
    (user : Option Principal) (event : ChangeEvent) (model_label : String)
    (hm : dictGet event.content "model" = .ok model_label) :
    (get_permissions reg model_label event.group_key event.rank =
        .error .keyError →
      notify reg store user event = .ok ⟨[], ["NO ENTRY -- ERROR"]⟩) ∧
    (get_permissions reg model_label event.group_key event.rank =
        .error .indexError →
      notify reg store user event = .error .indexError) := by
  constructor <;> intro h <;> simp [notify, hm, h]

/-- C5 witness: the registry-miss theorem applied to an empty registry, where
the model-label lookup raises the caught `KeyError`. -/
theorem notify_registry_miss_handling_witness :
    notify [] emptyStore none eventOrder42 = .ok ⟨[], ["NO ENTRY -- ERROR"]⟩ :=
  (notify_registry_miss_handling [] emptyStore none eventOrder42
    "app.Order" rfl).1 rfl

/-! ## C6: a faulting check evaluation propagates instead of denying -/

/-- A check that raises on every input. -/
def raisingCheck : PermissionLambda := fun _ _ => .error .checkFault

/-- A registry whose rank-0 check for `("app.Order", "id")` raises. -/
def regRaisingCheck : Listeners := [("app.Order", [("id", [(0, some raisingCheck)])])]

/-- A record store holding the single Order instance 42. -/
def storeWithOrder : RecordStore := ⟨fun _ _ => some ⟨[("id", 42)]⟩⟩

/-- C6 counterexample: when the instance was deleted between the change and
the evaluation (`DoesNotExist`), `notify` does not treat the delivery as
denied — the exception propagates uncaught out of the handler. -/
theorem notify_missing_instance_propagates :
    notify regRealCheck emptyStore none eventOrder42 = .error .doesNotExist := rfl

/-- C6 (amended): when the check evaluation faults — the record fetch raises
`DoesNotExist`, or the check itself raises — no payload is sent, but the
exception propagates out of `notify` instead of being handled as a silent
denial. -/
theorem notify_check_fault_propagates (reg : Listeners) (store : RecordStore)
    (user : Option Principal) (event : ChangeEvent) (model_label : String)
    (r : Nat) (c : PermissionLambda) (e : PyError)
    (hm : dictGet event.content "model" = .ok model_label)
    (hp : get_permissions reg model_label event.group_key event.rank =
      .ok (r, some c))
    (hf : does_have_permission store user model_label
      [("id", event.instance_pk)] c = .error e) :
    notify reg store user event = .error e ∧
    ∀ out, notify reg store user event ≠ .ok out := by
  have h : notify reg store user event = .error e := by
    simp [notify, hm, hp, hf]
  refine ⟨h, fun out hout => ?_⟩
  rw [h] at hout
  exact absurd hout (by simp)

/-- C6 witness: the fault-propagation theorem applied to a registered check
that raises, with the instance present in the store. -/
theorem notify_check_fault_propagates_witness :
    notify regRaisingCheck storeWithOrder none eventOrder42 =
      .error .checkFault :=
  (notify_check_fault_propagates regRaisingCheck storeWithOrder none
    eventOrder42 "app.Order" 0 raisingCheck .checkFault rfl rfl rfl).1

/-! ## C7: field-presence validation has a gap for `property` -/

/-- C7 counterexample: a request missing only `property` (model and value
present) is NOT rejected — the handler subscribes the connection to a group
whose property segment is the literal string `None`, changing state and
calling the fabric. -/
theorem missing_property_not_rejected :
    receive_json ⟨[], []⟩ ⟨some "app.Order", none, some "42", none⟩ =
      .ok ⟨⟨["RESOURCE-app.Order-None-42"], ["RESOURCE-app.Order-None-42"]⟩,
        [.group_add "RESOURCE-app.Order-None-42"],
        ["[REST-LIVE] got subscription to RESOURCE-app.Order-None-42"]⟩ ∧
    ([FabricCall.group_add "RESOURCE-app.Order-None-42"] : List FabricCall) ≠
      [] := by
  refine ⟨rfl, by decide⟩

/-- C7 (amended): a request missing `model`, or missing `value`, is rejected
with no state change, no fabric call and one diagnostic, and the connection
stays open; but a request missing only `property` is not rejected — it
proceeds with the property rendered as the string `None`. -/
theorem malformed_request_rejection (st : ConsumerState) (p v : Option String)
    (u : Option Bool) (m : String) :
    receive_json st ⟨none, p, v, u⟩ = .ok ⟨st, [], ["[LIVE] No model"]⟩ ∧
    receive_json st ⟨some m, p, none, u⟩ =
      .ok ⟨st, [], ["[LIVE] No value for prop " ++ pyStr p ++ " found."]⟩ :=
  ⟨rfl, rfl⟩

/-! ## C8: unsubscribe acts as a reference count on local copies -/

/-- C8: when the connection holds at least two local copies of the group name,
one unsubscribe removes exactly one copy, calls no fabric operation (discard
happens only when no copy remains), and the fabric membership is untouched. -/
theorem unsubscribe_refcount (st : ConsumerState) (m p v : String)
    (h : 2 ≤ st.groups.count (get_group_name m v p)) :
    receive_json st ⟨some m, some p, some v, some true⟩ =
      .ok ⟨⟨st.groups.erase (get_group_name m v p), st.fabricMembers⟩, [],
        ["[REST-LIVE] got unsubscribe for " ++ get_group_name m v p]⟩ ∧
    1 ≤ (st.groups.erase (get_group_name m v p)).count (get_group_name m v p) := by
  have hcnt : (st.groups.erase (get_group_name m v p)).count (get_group_name m v p)
      = st.groups.count (get_group_name m v p) - 1 :=
    List.count_erase_self _ _
  have hmem : get_group_name m v p ∈ st.groups :=
    List.count_pos_iff.mp (by omega)
  have hmem' : get_group_name m v p ∈ st.groups.erase (get_group_name m v p) :=
    List.count_pos_iff.mp (by omega)
  refine ⟨?_, by omega⟩
  simp [receive_json, pyStr, hmem, hmem']

/-- C8 witness: the refcount theorem applied to a connection holding two local
copies of the group. -/
theorem unsubscribe_refcount_witness :
    (receive_json
        ⟨["RESOURCE-app.Order-id-42", "RESOURCE-app.Order-id-42"],
          ["RESOURCE-app.Order-id-42"]⟩
        ⟨some "app.Order", some "id", some "42", some true⟩ =
      .ok ⟨⟨(["RESOURCE-app.Order-id-42", "RESOURCE-app.Order-id-42"] :
            List String).erase (get_group_name "app.Order" "42" "id"),
          ["RESOURCE-app.Order-id-42"]⟩, [],
        ["[REST-LIVE] got unsubscribe for " ++
          get_group_name "app.Order" "42" "id"]⟩) ∧
    1 ≤ ((["RESOURCE-app.Order-id-42", "RESOURCE-app.Order-id-42"] :
        List String).erase (get_group_name "app.Order" "42" "id")).count
        (get_group_name "app.Order" "42" "id") :=
  unsubscribe_refcount
    ⟨["RESOURCE-app.Order-id-42", "RESOURCE-app.Order-id-42"],
      ["RESOURCE-app.Order-id-42"]⟩
    "app.Order" "id" "42" (by decide)

/-! ## C9: a content dict without "model" crashes notify -/

/-- C9: `notify` reads `content["model"]` before entering its `try` block, so
an event whose content lacks the key `model` raises an uncaught `KeyError`:
the event is not dropped gracefully (no outcome is produced at all). -/
theorem notify_missing_model_key (reg : Listeners) (store : RecordStore)
    (user : Option Principal) (event : ChangeEvent)
    (h : dictGet event.content "model" = .error .keyError) :
    notify reg store user event = .error .keyError ∧
    ∀ out, notify reg store user event ≠ .ok out := by
  have hn : notify reg store user event = .error .keyError := by simp [notify, h]
  refine ⟨hn, fun out hout => ?_⟩
  rw [hn] at hout
  exact absurd hout (by simp)

/-- C9 witness: the missing-model theorem applied to an event with empty
content. -/
theorem notify_missing_model_key_witness :
    notify regNullCheck emptyStore none ⟨[], "id", 42, 0⟩ =
      .error .keyError :=
  (notify_missing_model_key regNullCheck emptyStore none ⟨[], "id", 42, 0⟩ rfl).1

/-! ## C10: the instance fetch is keyed by the literal field "id" -/

/-- C10: `notify` consults the record store only through the fixed filter
`id = instance_pk`: two stores that agree on that one filter (for every
model label) are observationally identical to `notify`, whatever the
subscription property or group key was. -/
theorem notify_fetches_by_literal_id (reg : Listeners) (user : Option Principal)
    (event : ChangeEvent) (store1 store2 : RecordStore)
    (h : ∀ ml, store1.fetch ml [("id", event.instance_pk)] =
      store2.fetch ml [("id", event.instance_pk)]) :
    notify reg store1 user event = notify reg store2 user event := by
  have hd : ∀ ml c, does_have_permission store1 user ml
      [("id", event.instance_pk)] c =
    does_have_permission store2 user ml [("id", event.instance_pk)] c := by
    intro ml c
    unfold does_have_permission
    rw [h ml]
  simp only [notify, hd]

/-- A store answering only the filter `id = 42`. -/
def storeById : RecordStore :=
  ⟨fun _ f => if f = [("id", (42 : Int))] then some ⟨[("id", 42)]⟩ else none⟩

/-- A store agreeing with `storeById` on the filter `id = 42` but differing
everywhere else. -/
def storeByIdJunk : RecordStore :=
  ⟨fun _ f => if f = [("id", (42 : Int))] then some ⟨[("id", 42)]⟩ else some ⟨[]⟩⟩

/-- C10 witness: two stores that differ on every filter except `id = 42`
are indistinguishable to `notify` on the event for instance 42. -/
theorem notify_fetches_by_literal_id_witness :
    notify regRealCheck storeById none eventOrder42 =
      notify regRealCheck storeByIdJunk none eventOrder42 :=
  notify_fetches_by_literal_id regRealCheck none eventOrder42
    storeById storeByIdJunk (fun _ => rfl)
